import Mathlib

/-!
Shallow embedding of the GoldBottomEntLLC single-page application core:
the localStorage-backed CRUD data layer (js/data-store.js, js/utils.js),
the hash router with dual layouts (js/router.js), the access controller
(js/auth.js) and the content loader (js/page-loader.js, found inside
js/scroll-animations.js).  JavaScript objects are modelled as ordered
association lists from field names to primitive values; external
collaborators (clock, random id source, network fetch, Firestore) are
modelled as explicit inputs.
-/

namespace GBE

/-- A JavaScript primitive value as stored in the data layer. -/
inductive Value where
  | vStr (s : String)
  | vNum (n : Int)
  | vBool (b : Bool)
  | vNull
  deriving DecidableEq, Repr

/-- A JavaScript object: an ordered list of field bindings. -/
abbrev Obj := List (String × Value)

/-- First binding for a key, mirroring JavaScript property lookup. -/
def assocGet {α : Type} : List (String × α) → String → Option α
  | [], _ => none
  | (k', v) :: rest, k => if k' = k then some v else assocGet rest k

/-- Property assignment: replace the binding in place if the key exists
(JavaScript keeps the original insertion position), else append. -/
def assocSet {α : Type} : List (String × α) → String → α → List (String × α)
  | [], k, v => [(k, v)]
  | (k', v') :: rest, k, v =>
      if k' = k then (k, v) :: rest else (k', v') :: assocSet rest k v

/-- JavaScript truthiness of a primitive value. -/
def Value.truthy : Value → Bool
  | .vStr s => s ≠ ""
  | .vNum n => n ≠ 0
  | .vBool b => b
  | .vNull => false

/-- Truthiness of a possibly-absent field (absent and null are falsy). -/
def truthyOpt : Option Value → Bool
  | none => false
  | some v => v.truthy

/-- The JavaScript expression `a or-else b` on field reads: the first
operand if truthy, otherwise the second. -/
def jsOr (a : Option Value) (b : Value) : Value :=
  match a with
  | some v => if v.truthy then v else b
  | none => b

/-- The statement `o.k = o.k || v`: keep a truthy field, otherwise
assign `v` to it. -/
def orAssign (o : Obj) (k : String) (v : Value) : Obj :=
  if truthyOpt (assocGet o k) then o else assocSet o k v

/-- Object spread `{ ...a, ...b }`: fields of `b` assigned over `a`
in order. -/
def mergeObj (a : Obj) : Obj → Obj
  | [] => a
  | (k, v) :: rest => mergeObj (assocSet a k v) rest

/-- The predicate `item.id === id` used by the CRUD helpers. -/
def matchesId (id : String) (it : Obj) : Bool :=
  assocGet it "id" == some (Value.vStr id)

/-- `items.find((item) => item.id === id)`. -/
def findById : List Obj → String → Option Obj
  | [], _ => none
  | it :: rest, id => if matchesId id it then some it else findById rest id

/-- `items.findIndex((item) => item.id === id)`, with `none` for `-1`. -/
def findIndexById : List Obj → String → Option Nat
  | [], _ => none
  | it :: rest, id =>
      if matchesId id it then some 0
      else (findIndexById rest id).map (fun n => n + 1)

/-- Utils.generateId: `gbe_` + Date.now() + `_` + a four-digit hex
suffix of a random number below 65536.  The clock value and the random
draw are explicit inputs. -/
def generateId (nowMs rand : Nat) : String :=
  let hx := String.mk (Nat.toDigits 16 (rand % 65536))
  let hx := String.mk (List.replicate (4 - hx.length) '0') ++ hx
  "gbe_" ++ toString nowMs ++ "_" ++ hx

/-- The persistent key-value store: localStorage seen through
Utils.storage, with each key holding a JSON array of objects. -/
abbrev Store := List (String × List Obj)

/-- Utils.storage.get with fallback `[]`: the stored collection, or the
empty collection when the key is absent. -/
def storageGet (st : Store) (k : String) : List Obj :=
  (assocGet st k).getD []

/-- Utils.storage.set: serialize and write the collection. -/
def storageSet (st : Store) (k : String) (v : List Obj) : Store :=
  assocSet st k v

namespace DataStore

/-- DataStore.KEYS.ACTIVITY. -/
def activityKey : String := "gbe-activity"

/-- The entityLabels table of DataStore._logActivity. -/
def entityLabels : List (String × String) :=
  [ ("gbe-roster", "talent"),
    ("gbe-contracts", "contract"),
    ("gbe-revenue", "revenue"),
    ("gbe-expenses", "expense"),
    ("gbe-invoices", "invoice"),
    ("gbe-events", "event"),
    ("gbe-bookings", "booking"),
    ("gbe-ip-rights", "IP entry"),
    ("gbe-merch-products", "product"),
    ("gbe-merch-orders", "order"),
    ("gbe-travel", "itinerary"),
    ("gbe-distribution", "release"),
    ("gbe-venue-leads", "venue lead"),
    ("gbe-it-credentials", "credential"),
    ("gbe-it-servers", "server") ]

/-- DataStore._logActivity: unshift one activity record onto the
activity collection and truncate it to the most recent 50.  The id of
the new activity record (`aid`, from Utils.generateId) and the ISO
timestamp (`now`) are explicit inputs. -/
def logActivity (st : Store) (action entityKey : String) (entity : Obj)
    (aid now : String) : Store :=
  let activities := storageGet st activityKey
  let label := (assocGet entityLabels entityKey).getD "item"
  let name := jsOr (assocGet entity "name")
      (jsOr (assocGet entity "title")
        (jsOr (assocGet entity "description") (.vStr "Unknown")))
  let a : Obj :=
    [ ("id", .vStr aid), ("action", .vStr action), ("entityType", .vStr label),
      ("entityName", name), ("timestamp", .vStr now) ]
  let activities := a :: activities
  let activities := if activities.length > 50 then activities.take 50 else activities
  storageSet st activityKey activities

/-- DataStore._getAll. -/
def getAll (st : Store) (key : String) : List Obj :=
  storageGet st key

/-- DataStore._getById: first record whose id matches, `none` for null. -/
def getById (st : Store) (key id : String) : Option Obj :=
  findById (storageGet st key) id

/-- DataStore._add: fill in a missing id and createdAt, stamp updatedAt,
push, save, log one create activity, and return the stored record.
`gid` is the Utils.generateId output consumed for the record id, `aid`
the one consumed for the activity record, `now` the ISO timestamp. -/
def add (st : Store) (key : String) (item : Obj) (gid aid now : String) :
    Obj × Store :=
  let items := storageGet st key
  let item := orAssign item "id" (.vStr gid)
  let item := orAssign item "createdAt" (.vStr now)
  let item := assocSet item "updatedAt" (.vStr now)
  let items := items ++ [item]
  let st := storageSet st key items
  let st := logActivity st "create" key item aid now
  (item, st)

/-- DataStore._update: shallow-merge the patch over the first record
with the given id, stamp updatedAt, save, log one update activity, and
return the merged record; `none` and an untouched store on a miss. -/
def update (st : Store) (key id : String) (updates : Obj) (aid now : String) :
    Option Obj × Store :=
  let items := storageGet st key
  match findIndexById items id with
  | none => (none, st)
  | some i =>
      let merged := assocSet (mergeObj (items.getD i []) updates) "updatedAt" (.vStr now)
      let items := items.set i merged
      let st := storageSet st key items
      let st := logActivity st "update" key merged aid now
      (some merged, st)

/-- DataStore._delete: filter out every record with the given id, save,
and log one delete activity only when a record was actually found;
returns the remaining collection. -/
def deleteById (st : Store) (key id : String) (aid now : String) :
    List Obj × Store :=
  let items := storageGet st key
  let item := findById items id
  let filtered := items.filter (fun it => !(matchesId id it))
  let st := storageSet st key filtered
  let st := match item with
    | some it => logActivity st "delete" key it aid now
    | none => st
  (filtered, st)

/-- DataStore.getActivity: the newest `limit` activity records. -/
def getActivity (st : Store) (limit : Nat) : List Obj :=
  (storageGet st activityKey).take limit

end DataStore

/-- The shape of the activity record appended by DataStore.logActivity. -/
def mkActivity (action entityKey : String) (entity : Obj) (aid now : String) : Obj :=
  [ ("id", .vStr aid), ("action", .vStr action),
    ("entityType", .vStr ((assocGet DataStore.entityLabels entityKey).getD "item")),
    ("entityName", jsOr (assocGet entity "name")
      (jsOr (assocGet entity "title")
        (jsOr (assocGet entity "description") (.vStr "Unknown")))),
    ("timestamp", .vStr now) ]

/-- The Router.routes table: symbolic route name to content location. -/
def routes : List (String × String) :=
  [ ("home", "pages/home.html"),
    ("legal", "pages/legal.html"),
    ("ent-home", "pages/entertainment/home.html"),
    ("ent-roster", "pages/entertainment/roster.html"),
    ("ent-services", "pages/entertainment/services.html"),
    ("ent-shop", "pages/entertainment/shop.html"),
    ("ent-events", "pages/entertainment/events.html"),
    ("ent-about", "pages/entertainment/about.html"),
    ("ent-contact", "pages/entertainment/contact.html"),
    ("biz-home", "pages/enterprise/home.html"),
    ("biz-services", "pages/enterprise/services.html"),
    ("biz-portfolio", "pages/enterprise/portfolio.html"),
    ("biz-about", "pages/enterprise/about.html"),
    ("biz-contact", "pages/enterprise/contact.html"),
    ("dashboard-home", "dashboard/home.html"),
    ("dashboard-roster", "dashboard/roster.html"),
    ("dashboard-contracts", "dashboard/contracts.html"),
    ("dashboard-finances", "dashboard/finances.html"),
    ("dashboard-booking", "dashboard/booking.html"),
    ("dashboard-leads", "dashboard/leads.html"),
    ("dashboard-merch", "dashboard/merch.html"),
    ("dashboard-travel", "dashboard/travel.html"),
    ("dashboard-calendar", "dashboard/calendar.html"),
    ("dashboard-ip", "dashboard/ip-rights.html"),
    ("dashboard-distribution", "dashboard/distribution.html"),
    ("dashboard-documents", "dashboard/documents.html"),
    ("dashboard-integrations", "dashboard/integrations.html"),
    ("dashboard-settings", "dashboard/settings.html"),
    ("dashboard-team", "dashboard/team.html"),
    ("dashboard-architecture", "dashboard/architecture.html"),
    ("dashboard-credentials", "dashboard/credentials.html"),
    ("dashboard-servers", "dashboard/servers.html") ]

/-- The Router.legacyRedirects table. -/
def legacyRedirects : List (String × String) :=
  [ ("roster", "ent-roster"),
    ("shop", "ent-shop"),
    ("services", "home"),
    ("about", "home"),
    ("contact", "home") ]

/-- Router.localOnlyRoutes: routes available only on the LAN dashboard. -/
def localOnlyRoutes : List String :=
  [ "dashboard-finances", "dashboard-documents", "dashboard-integrations",
    "dashboard-settings", "dashboard-team", "dashboard-credentials" ]

/-- Router.defaultPage. -/
def defaultPage : String := "home"

/-- Leading-segment test on character lists (an executable model of
String.startsWith). -/
def charsLead : List Char → List Char → Bool
  | [], _ => true
  | _ :: _, [] => false
  | c :: cs, d :: ds => c == d && charsLead cs ds

/-- Whether `s` starts with `lead`. -/
def strStartsWith (s lead : String) : Bool :=
  charsLead lead.data s.data

/-- Router.isDashboardRoute. -/
def isDashboardRoute (p : String) : Bool :=
  strStartsWith p "dashboard-"

/-- Router.getVerticalForPage. -/
def getVerticalForPage (p : String) : String :=
  if strStartsWith p "ent-" then "ent"
  else if strStartsWith p "biz-" then "biz"
  else "neutral"

/-- Router.getLayoutForPage. -/
def getLayoutForPage (p : String) : String :=
  if isDashboardRoute p then "dashboard" else "public"

/-- The Auth singleton state fields consulted by the route guard and
the sign-in flow.  `authFlagDisabled` models
`SiteConfig.features.enableAuth === false`, `hasUser` the presence of a
Firebase user object, `serverUrl` the detected LAN server base URL. -/
structure AuthSt where
  initialized : Bool
  initializing : Bool
  isPinAuth : Bool
  authorized : Bool
  hasUser : Bool
  registrationStatus : Option String
  role : Option String
  pendingRoute : Option String
  serverUrl : Option String
  authFlagDisabled : Bool
  deriving DecidableEq, Repr

/-- Auth.isAuthenticated: PIN auth needs only the authorized bit,
Firebase auth needs both a user and the authorized bit. -/
def isAuthenticated (a : AuthSt) : Bool :=
  (a.isPinAuth && a.authorized) || (a.hasUser && a.authorized)

/-- Auth.isAdmin. -/
def isAdmin (a : AuthSt) : Bool :=
  isAuthenticated a && a.role == some "admin"

/-- Auth.isLocalDashboard: true exactly when a LAN server URL was
detected. -/
def isLocalDashboard (a : AuthSt) : Bool :=
  a.serverUrl.isSome

/-- The combined application state: Auth, Router, the PageLoader cache,
and observable effect logs (fetches, layout switches, theme updates,
toasts, login prompts, sign-out calls, analytics page views). -/
structure App where
  auth : AuthSt
  currentPage : Option String
  currentLayout : Option String
  currentVertical : Option String
  cache : List (String × String)
  fetchLog : List String
  layoutLog : List String
  themeLog : List String
  toasts : List String
  loginModalShown : Nat
  pendingScreenShown : Nat
  loginErrors : List String
  signOutCalls : Nat
  analyticsLog : List String
  deriving DecidableEq, Repr

/-- Auth.guardRoute: the boolean outcome plus the state effects
(queued pending route, login modal, pending-approval screen). -/
def guardRoute (p : String) (st : App) : Bool × App :=
  if st.auth.authFlagDisabled = true then (true, st)
  else if isDashboardRoute p = false then (true, st)
  else if st.auth.initializing = true then
    (false, { st with auth := { st.auth with pendingRoute := some p } })
  else if st.auth.initialized = false then
    (false, { st with auth := { st.auth with pendingRoute := some p },
                      loginModalShown := st.loginModalShown + 1 })
  else if isAuthenticated st.auth = true then (true, st)
  else if st.auth.hasUser = true ∧ st.auth.registrationStatus = some "pending" then
    (false, { st with pendingScreenShown := st.pendingScreenShown + 1 })
  else
    (false, { st with auth := { st.auth with pendingRoute := some p },
                      loginModalShown := st.loginModalShown + 1 })

/-- The boolean component of Auth.guardRoute, which depends only on the
auth state (the guard effects never change the outcome). -/
def guardAllows (p : String) (a : AuthSt) : Bool :=
  if a.authFlagDisabled = true then true
  else if isDashboardRoute p = false then true
  else if a.initializing = true then false
  else if a.initialized = false then false
  else if isAuthenticated a = true then true
  else false

/-- Router.switchLayout: record the mode and log the switch. -/
def switchLayout (mode : String) (st : App) : App :=
  { st with currentLayout := some mode, layoutLog := st.layoutLog ++ [mode] }

/-- Router.updateTheme: skipped entirely for dashboard routes;
otherwise records the vertical and toggles the themed chrome (logged). -/
def updateTheme (p : String) (st : App) : App :=
  if isDashboardRoute p = true then st
  else { st with currentVertical := some (getVerticalForPage p),
                 themeLog := st.themeLog ++ [p] }

/-- The content served by the external content server for a location;
the model assumes the fetch succeeds (claims under study concern the
cache discipline, not fetch failures). -/
def fetchContent (url : String) : String :=
  "markup:" ++ url

/-- PageLoader.getPageContent: serve from the cache keyed by route name,
else fetch the location (logged), cache the markup, and return it. -/
def getPageContent (page url : String) (st : App) : String × App :=
  match assocGet st.cache page with
  | some c => (c, st)
  | none =>
      let content := fetchContent url
      (content, { st with fetchLog := st.fetchLog ++ [url],
                          cache := assocSet st.cache page content })

/-- PageLoader.loadPage: obtain the content (cache or fetch) and inject
it; the DOM injection, fades and script re-execution are outside the
model. -/
def pageLoaderLoad (page url : String) (st : App) : App :=
  (getPageContent page url st).2

/-- Router.loadPage: look up the content location and delegate to the
PageLoader (navigateTo only calls this with a validated route name). -/
def routerLoadPage (p : String) (st : App) : App :=
  pageLoaderLoad p ((assocGet routes p).getD "") st

/-- Step 1 of Router.navigateTo: resolve a legacy alias to its
canonical route name. -/
def resolveAlias (p : String) : String :=
  match assocGet legacyRedirects p with
  | some q => q
  | none => p

/-- Step 2 of Router.navigateTo: substitute the default route for an
unknown name. -/
def validateRoute (p : String) : String :=
  match assocGet routes p with
  | some _ => p
  | none => defaultPage

/-- Router.navigateTo, fuelled for the recursive redirect of the
environment guard: resolve legacy aliases, substitute the default route
for unknown names, run the auth guard, the admin guard and the
local-only guard, skip when already on the route and not forced, then
switch layout, update theme, load the content, and commit the new
current page (with an analytics page view). -/
def navigateTo : Nat → String → Bool → App → App
  | 0, _, _, st => st
  | fuel + 1, pageName, forceLoad, st =>
    let p := resolveAlias pageName
    let p := validateRoute p
    let g := guardRoute p st
    let st := g.2
    if g.1 = false then st
    else if p = "dashboard-team" ∧ isAdmin st.auth = false then
      { st with toasts := st.toasts ++ ["Access denied. Admin privileges required."] }
    else if p ∈ localOnlyRoutes ∧ isLocalDashboard st.auth = false then
      let st := { st with toasts :=
        st.toasts ++ ["This section is only available on the local dashboard."] }
      navigateTo fuel "dashboard-home" false st
    else if st.currentPage = some p ∧ forceLoad = false then st
    else
      let target := getLayoutForPage p
      let st := if some target ≠ st.currentLayout then switchLayout target st else st
      let st := updateTheme p st
      let st := routerLoadPage p st
      { st with currentPage := some p,
                analyticsLog := st.analyticsLog ++ ["/#" ++ p] }

/-- The state reached by the main branch of navigateTo (after the
guards and the no-op check): layout switch if needed, theme update,
content load, committed current page and analytics page view. -/
def navCommit (name : String) (st : App) : App :=
  let st1 := if some (getLayoutForPage name) ≠ st.currentLayout then
      switchLayout (getLayoutForPage name) st else st
  let st2 := updateTheme name st1
  let st3 := routerLoadPage name st2
  { st3 with currentPage := some name,
             analyticsLog := st3.analyticsLog ++ ["/#" ++ name] }

/-- The outcome of the Firestore registration check consumed by the
auth state listener: a resolved status (with the role recorded by
Auth.checkRegistration as a side effect) or a rejected promise. -/
inductive RegCheck where
  | resolved (status role : String)
  | rejected
  deriving DecidableEq, Repr

/-- The Auth.onAuthStateChanged listener installed by the federated
initialization: on a signed-in user, apply the registration outcome
(approved grants access and replays a pending route, pending shows the
waiting screen, denied signs out with an error, a rejected check fails
open as an approved admin); on sign-out, clear the credential state and
leave any dashboard route. -/
def handleAuthState (fuel : Nat) (user : Bool) (reg : RegCheck) (st : App) : App :=
  if st.auth.isPinAuth = true then st
  else
    let st := { st with auth := { st.auth with hasUser := user } }
    if user = true then
      match reg with
      | .resolved status role =>
          let a := { st.auth with
                     role := some role,
                     registrationStatus := some status,
                     authorized := status == "approved" }
          let st := { st with auth := a }
          if status = "approved" then
            let st := { st with toasts := st.toasts ++ ["Welcome"] }
            match a.pendingRoute with
            | some r =>
                navigateTo fuel r true
                  { st with auth := { st.auth with pendingRoute := none } }
            | none => st
          else if status = "pending" then
            { st with pendingScreenShown := st.pendingScreenShown + 1 }
          else if status = "denied" then
            { st with signOutCalls := st.signOutCalls + 1,
                      loginErrors :=
                        st.loginErrors ++ ["Your access request has been denied."] }
          else st
      | .rejected =>
          { st with auth := { st.auth with
                              authorized := true,
                              registrationStatus := some "approved",
                              role := some "admin" } }
    else
      let st := { st with auth := { st.auth with
                                    authorized := false,
                                    registrationStatus := none,
                                    role := none } }
      match st.currentPage with
      | some p => if isDashboardRoute p then navigateTo fuel "home" false st else st
      | none => st

/-! Concrete fixtures used by witnesses and counterexamples. -/

/-- A fresh remote visitor: auth initialized, no credentials. -/
def guestSession : AuthSt :=
  { initialized := true, initializing := false, isPinAuth := false,
    authorized := false, hasUser := false, registrationStatus := none,
    role := none, pendingRoute := none, serverUrl := none,
    authFlagDisabled := false }

/-- An approved federated member on the LAN dashboard. -/
def memberSession : AuthSt :=
  { guestSession with hasUser := true, authorized := true,
                      registrationStatus := some "approved",
                      role := some "member",
                      serverUrl := some "http://192.168.1.191:3000" }

/-- An approved federated admin on the LAN dashboard. -/
def adminSession : AuthSt :=
  { memberSession with role := some "admin" }

/-- An approved federated member on the remote (public) host, where no
LAN server URL is detected. -/
def remoteMemberSession : AuthSt :=
  { memberSession with serverUrl := none }

/-- An application state with empty logs and cache on a given page. -/
def mkApp (a : AuthSt) (page : Option String) : App :=
  { auth := a, currentPage := page, currentLayout := some "dashboard",
    currentVertical := none, cache := [], fetchLog := [], layoutLog := [],
    themeLog := [], toasts := [], loginModalShown := 0, pendingScreenShown := 0,
    loginErrors := [], signOutCalls := 0, analyticsLog := [] }

/-- A roster collection holding one record with id `a`. -/
def storeA : Store :=
  [("gbe-roster", [[("id", Value.vStr "a"), ("x", Value.vNum 1)]])]

/-- A roster collection holding one record with id `a` and an
updatedAt timestamp. -/
def storeB : Store :=
  [("gbe-roster",
    [[("id", Value.vStr "a"), ("x", Value.vNum 1),
      ("updatedAt", Value.vStr "t1")]])]

/-- One step of the 55-mutation scenario: add record number `i` to the
roster, with distinct generated ids and timestamps. -/
def addStep (i : Nat) (st : Store) : Store :=
  (DataStore.add st "gbe-roster" [("name", Value.vStr (toString i))]
    ("gbe_" ++ toString i ++ "_0000") ("act" ++ toString i)
    ("t" ++ toString i)).2

/-- Run `n` sequential adds numbered from `i`. -/
def runAdds : Nat → Nat → Store → Store
  | 0, _, st => st
  | n + 1, i, st => runAdds n (i + 1) (addStep i st)

/-- The activity record produced by mutation number `i` of the
55-mutation scenario. -/
def activityAt (i : Nat) : Obj :=
  mkActivity "create" "gbe-roster" [("name", Value.vStr (toString i))]
    ("act" ++ toString i) ("t" ++ toString i)

/-! Helper lemmas about the association-list object model. -/

theorem assocGet_set_self {α : Type} (l : List (String × α)) (k : String) (v : α) :
    assocGet (assocSet l k v) k = some v := by
  induction l with
  | nil => simp [assocGet, assocSet]
  | cons p rest ih =>
      by_cases h : p.1 = k
      · simp [assocSet, assocGet, h]
      · simp [assocSet, assocGet, h, ih]

theorem assocGet_set_ne {α : Type} (l : List (String × α)) (k' k : String) (v : α)
    (h : k' ≠ k) : assocGet (assocSet l k' v) k = assocGet l k := by
  induction l with
  | nil => simp [assocGet, assocSet, h]
  | cons p rest ih =>
      by_cases hp : p.1 = k'
      · simp [assocSet, assocGet, hp, h]
      · simp [assocSet, assocGet, hp, ih]

theorem assocGet_none_forall {α : Type} (l : List (String × α)) (k : String)
    (h : assocGet l k = none) : ∀ p ∈ l, p.1 ≠ k := by
  induction l with
  | nil => simp
  | cons p rest ih =>
      intro q hq
      by_cases hp : p.1 = k
      · simp [assocGet, hp] at h
      · simp [assocGet, hp] at h
        rcases List.mem_cons.mp hq with hq | hq
        · simpa [hq]
        · exact ih h q hq

theorem storageGet_set_self (st : Store) (k : String) (v : List Obj) :
    storageGet (storageSet st k v) k = v := by
  simp [storageGet, storageSet, assocGet_set_self]

theorem storageGet_set_ne (st : Store) (k' k : String) (v : List Obj)
    (h : k' ≠ k) : storageGet (storageSet st k' v) k = storageGet st k := by
  simp [storageGet, storageSet, assocGet_set_ne _ _ _ _ h]

theorem mergeObj_get_absent (a b : Obj) (k : String)
    (h : assocGet b k = none) : assocGet (mergeObj a b) k = assocGet a k := by
  induction b generalizing a with
  | nil => simp [mergeObj]
  | cons p rest ih =>
      have hp : p.1 ≠ k := assocGet_none_forall _ _ h p (by simp)
      have hrest : assocGet rest k = none := by
        cases p with
        | mk k' v' => simpa [assocGet, hp] using h
      cases p with
      | mk k' v' =>
          simp only [mergeObj]
          rw [ih _ hrest, assocGet_set_ne _ _ _ _ hp]

theorem assocGet_some_mem {α : Type} (l : List (String × α)) (k : String) (v : α)
    (h : assocGet l k = some v) : k ∈ l.map Prod.fst := by
  induction l with
  | nil => simp [assocGet] at h
  | cons p rest ih =>
      by_cases hp : p.1 = k
      · simp [hp]
      · simp only [assocGet, if_neg hp] at h
        simp [ih h]

theorem mergeObj_get_present (a b : Obj) (k : String) (v : Value)
    (hnd : (b.map Prod.fst).Nodup) (h : assocGet b k = some v) :
    assocGet (mergeObj a b) k = some v := by
  induction b generalizing a with
  | nil => simp [assocGet] at h
  | cons p rest ih =>
      cases p with
      | mk k' v' =>
          simp only [List.map_cons, List.nodup_cons] at hnd
          by_cases hp : k' = k
          · subst hp
            have hv : v' = v := by simpa [assocGet] using h
            subst hv
            have hrest : assocGet rest k' = none := by
              cases hre : assocGet rest k' with
              | none => rfl
              | some w => exact absurd (assocGet_some_mem _ _ _ hre) hnd.1
            simp only [mergeObj]
            rw [mergeObj_get_absent _ _ _ hrest, assocGet_set_self]
          · simp only [assocGet, if_neg hp] at h
            simp only [mergeObj]
            exact ih _ hnd.2 h

theorem findById_append_no_match (l l' : List Obj) (id : String)
    (h : ∀ it ∈ l, matchesId id it = false) :
    findById (l ++ l') id = findById l' id := by
  induction l with
  | nil => simp
  | cons it rest ih =>
      have hit : matchesId id it = false := h it (by simp)
      simp only [List.cons_append, findById, hit, Bool.false_eq_true, if_false]
      exact ih fun x hx => h x (by simp [hx])

theorem findIndexById_lt_length (items : List Obj) (id : String) (i : Nat)
    (h : findIndexById items id = some i) : i < items.length := by
  induction items generalizing i with
  | nil => simp [findIndexById] at h
  | cons it rest ih =>
      cases hm : matchesId id it with
      | true =>
          simp [findIndexById, hm] at h
          simp [List.length_cons]
          omega
      | false =>
          cases hr : findIndexById rest id with
          | none => simp [findIndexById, hm, hr] at h
          | some j =>
              simp [findIndexById, hm, hr] at h
              have := ih j hr
              simp [List.length_cons]
              omega

theorem findIndexById_getD (items : List Obj) (id : String) (i : Nat)
    (h : findIndexById items id = some i) :
    matchesId id (items.getD i []) = true := by
  induction items generalizing i with
  | nil => simp [findIndexById] at h
  | cons it rest ih =>
      cases hm : matchesId id it with
      | true =>
          simp [findIndexById, hm] at h
          simp [← h, List.getD, hm]
      | false =>
          cases hr : findIndexById rest id with
          | none => simp [findIndexById, hm, hr] at h
          | some j =>
              simp [findIndexById, hm, hr] at h
              have hj := ih j hr
              simp [← h, List.getD] at hj ⊢
              exact hj

theorem take_of_le_length {α : Type} (l : List α) (n : Nat) (h : l.length ≤ n) :
    l.take n = l :=
  List.take_of_length_le h

theorem trunc50_eq_take (l : List Obj) :
    (if l.length > 50 then l.take 50 else l) = l.take 50 := by
  by_cases h : l.length > 50
  · simp [h]
  · simp only [h, if_false]
    exact (take_of_le_length l 50 (by omega)).symm

theorem logActivity_eq (st : Store) (action entityKey : String) (entity : Obj)
    (aid now : String) :
    DataStore.logActivity st action entityKey entity aid now =
      storageSet st DataStore.activityKey
        ((mkActivity action entityKey entity aid now ::
          storageGet st DataStore.activityKey).take 50) := by
  simp only [DataStore.logActivity, mkActivity]
  rw [trunc50_eq_take]

theorem logActivity_other (st : Store) (action entityKey : String) (entity : Obj)
    (aid now k : String) (h : k ≠ DataStore.activityKey) :
    storageGet (DataStore.logActivity st action entityKey entity aid now) k =
      storageGet st k := by
  rw [logActivity_eq]
  exact storageGet_set_ne _ _ _ _ fun he => h he.symm

theorem logActivity_activity (st : Store) (action entityKey : String) (entity : Obj)
    (aid now : String) :
    storageGet (DataStore.logActivity st action entityKey entity aid now)
        DataStore.activityKey =
      (mkActivity action entityKey entity aid now ::
        storageGet st DataStore.activityKey).take 50 := by
  rw [logActivity_eq, storageGet_set_self]

theorem findById_set_of_findIndex (items : List Obj) (id : String) (i : Nat)
    (x : Obj) (h : findIndexById items id = some i)
    (hx : matchesId id x = true) :
    findById (items.set i x) id = some x := by
  induction items generalizing i with
  | nil => simp [findIndexById] at h
  | cons it rest ih =>
      cases hm : matchesId id it with
      | true =>
          simp [findIndexById, hm] at h
          simp [← h, List.set, findById, hx]
      | false =>
          cases hr : findIndexById rest id with
          | none => simp [findIndexById, hm, hr] at h
          | some j =>
              simp [findIndexById, hm, hr] at h
              have hj := ih j hr
              simp [← h, List.set, findById, hm]
              exact hj

/-! Helper lemmas about the guard and the router. -/

theorem guardRoute_fst (p : String) (st : App) :
    (guardRoute p st).1 = guardAllows p st.auth := by
  unfold guardRoute guardAllows
  split_ifs <;> rfl

theorem guardRoute_pass (p : String) (st : App)
    (h : guardAllows p st.auth = true) : guardRoute p st = (true, st) := by
  unfold guardRoute
  unfold guardAllows at h
  split_ifs at h ⊢ <;> rfl

theorem guardRoute_frame (p : String) (st : App) :
    (guardRoute p st).2.currentPage = st.currentPage ∧
    (guardRoute p st).2.currentLayout = st.currentLayout ∧
    (guardRoute p st).2.currentVertical = st.currentVertical ∧
    (guardRoute p st).2.cache = st.cache ∧
    (guardRoute p st).2.fetchLog = st.fetchLog ∧
    (guardRoute p st).2.layoutLog = st.layoutLog ∧
    (guardRoute p st).2.themeLog = st.themeLog ∧
    (guardRoute p st).2.toasts = st.toasts := by
  unfold guardRoute
  split_ifs <;> simp

theorem guardAllows_dashboard_congr (p q : String) (a : AuthSt)
    (hp : isDashboardRoute p = true) (hq : isDashboardRoute q = true) :
    guardAllows p a = guardAllows q a := by
  unfold guardAllows
  rw [hp, hq]

theorem navigateTo_blocked (fuel : Nat) (name : String) (force : Bool) (st : App)
    (hres : validateRoute (resolveAlias name) = name)
    (h : guardAllows name st.auth = false) :
    navigateTo (fuel + 1) name force st = (guardRoute name st).2 := by
  simp only [navigateTo, hres]
  rw [guardRoute_fst, h]
  simp

theorem navigateTo_role_block (fuel : Nat) (force : Bool) (st : App)
    (hpass : guardAllows "dashboard-team" st.auth = true)
    (hadm : isAdmin st.auth = false) :
    navigateTo (fuel + 1) "dashboard-team" force st =
      { st with toasts := st.toasts ++ ["Access denied. Admin privileges required."] } := by
  have hres : validateRoute (resolveAlias "dashboard-team") = "dashboard-team" := by
    decide
  simp only [navigateTo, hres]
  rw [guardRoute_pass _ _ hpass]
  simp [hadm]

theorem navigateTo_env_block (fuel : Nat) (name : String) (force : Bool) (st : App)
    (hres : validateRoute (resolveAlias name) = name)
    (hpass : guardAllows name st.auth = true)
    (hadm : ¬(name = "dashboard-team" ∧ isAdmin st.auth = false))
    (hmem : name ∈ localOnlyRoutes) (hloc : isLocalDashboard st.auth = false) :
    navigateTo (fuel + 1) name force st =
      navigateTo fuel "dashboard-home" false
        { st with toasts :=
            st.toasts ++ ["This section is only available on the local dashboard."] } := by
  simp only [navigateTo, hres]
  rw [guardRoute_pass _ _ hpass]
  simp only [if_neg hadm, hloc]
  simp [hmem]

theorem navigateTo_noop (fuel : Nat) (name : String) (st : App)
    (hres : validateRoute (resolveAlias name) = name)
    (hpass : guardAllows name st.auth = true)
    (hadm : ¬(name = "dashboard-team" ∧ isAdmin st.auth = false))
    (henv : ¬(name ∈ localOnlyRoutes ∧ isLocalDashboard st.auth = false))
    (hcur : st.currentPage = some name) :
    navigateTo (fuel + 1) name false st = st := by
  simp only [navigateTo, hres]
  rw [guardRoute_pass _ _ hpass]
  simp [if_neg hadm, if_neg henv, hcur]

theorem navigateTo_proceed (fuel : Nat) (name : String) (force : Bool) (st : App)
    (hres : validateRoute (resolveAlias name) = name)
    (hpass : guardAllows name st.auth = true)
    (hadm : ¬(name = "dashboard-team" ∧ isAdmin st.auth = false))
    (henv : ¬(name ∈ localOnlyRoutes ∧ isLocalDashboard st.auth = false))
    (hnoop : ¬(st.currentPage = some name ∧ force = false)) :
    navigateTo (fuel + 1) name force st = navCommit name st := by
  simp only [navigateTo, hres, navCommit]
  rw [guardRoute_pass _ _ hpass]
  simp [if_neg hadm, if_neg henv, if_neg hnoop]

theorem switchLayout_proj (m : String) (s : App) :
    (switchLayout m s).auth = s.auth ∧
    (switchLayout m s).currentPage = s.currentPage ∧
    (switchLayout m s).toasts = s.toasts ∧
    (switchLayout m s).fetchLog = s.fetchLog ∧
    (switchLayout m s).cache = s.cache := by
  simp [switchLayout]

theorem updateTheme_proj (p : String) (s : App) :
    (updateTheme p s).auth = s.auth ∧
    (updateTheme p s).currentPage = s.currentPage ∧
    (updateTheme p s).currentLayout = s.currentLayout ∧
    (updateTheme p s).toasts = s.toasts ∧
    (updateTheme p s).fetchLog = s.fetchLog ∧
    (updateTheme p s).cache = s.cache := by
  unfold updateTheme
  split_ifs <;> simp

theorem routerLoadPage_proj (p : String) (s : App) :
    (routerLoadPage p s).auth = s.auth ∧
    (routerLoadPage p s).currentPage = s.currentPage ∧
    (routerLoadPage p s).currentLayout = s.currentLayout ∧
    (routerLoadPage p s).currentVertical = s.currentVertical ∧
    (routerLoadPage p s).toasts = s.toasts := by
  unfold routerLoadPage pageLoaderLoad getPageContent
  cases h : assocGet s.cache p <;> simp [h]

theorem routerLoadPage_cache_hit (p : String) (s : App) (c : String)
    (h : assocGet s.cache p = some c) : routerLoadPage p s = s := by
  unfold routerLoadPage pageLoaderLoad getPageContent
  rw [h]

theorem routerLoadPage_cache_miss (p : String) (s : App)
    (h : assocGet s.cache p = none) :
    routerLoadPage p s =
      { s with fetchLog := s.fetchLog ++ [(assocGet routes p).getD ""],
               cache := assocSet s.cache p
                 (fetchContent ((assocGet routes p).getD "")) } := by
  unfold routerLoadPage pageLoaderLoad getPageContent
  rw [h]

theorem layoutStep_proj (name : String) (s : App) :
    (if some (getLayoutForPage name) ≠ s.currentLayout then
        switchLayout (getLayoutForPage name) s else s).auth = s.auth ∧
    (if some (getLayoutForPage name) ≠ s.currentLayout then
        switchLayout (getLayoutForPage name) s else s).toasts = s.toasts ∧
    (if some (getLayoutForPage name) ≠ s.currentLayout then
        switchLayout (getLayoutForPage name) s else s).fetchLog = s.fetchLog ∧
    (if some (getLayoutForPage name) ≠ s.currentLayout then
        switchLayout (getLayoutForPage name) s else s).cache = s.cache := by
  split_ifs
  · exact ⟨(switchLayout_proj _ _).1, (switchLayout_proj _ _).2.2.1,
      (switchLayout_proj _ _).2.2.2.1, (switchLayout_proj _ _).2.2.2.2⟩
  · exact ⟨rfl, rfl, rfl, rfl⟩

theorem navCommit_proj (name : String) (st : App) :
    (navCommit name st).currentPage = some name ∧
    (navCommit name st).toasts = st.toasts ∧
    (navCommit name st).auth = st.auth := by
  unfold navCommit
  refine ⟨rfl, ?_, ?_⟩
  · show (routerLoadPage name (updateTheme name _)).toasts = st.toasts
    rw [(routerLoadPage_proj _ _).2.2.2.2, (updateTheme_proj _ _).2.2.2.1,
      (layoutStep_proj name st).2.1]
  · show (routerLoadPage name (updateTheme name _)).auth = st.auth
    rw [(routerLoadPage_proj _ _).1, (updateTheme_proj _ _).1,
      (layoutStep_proj name st).1]

theorem navCommit_miss (name : String) (st : App)
    (hcache : assocGet st.cache name = none) :
    (navCommit name st).fetchLog =
      st.fetchLog ++ [(assocGet routes name).getD ""] ∧
    (navCommit name st).cache =
      assocSet st.cache name (fetchContent ((assocGet routes name).getD "")) := by
  unfold navCommit
  have h2 : assocGet (updateTheme name (if some (getLayoutForPage name) ≠
      st.currentLayout then switchLayout (getLayoutForPage name) st else st)).cache
      name = none := by
    rw [(updateTheme_proj _ _).2.2.2.2.2, (layoutStep_proj name st).2.2.2]
    exact hcache
  constructor
  · show (routerLoadPage name (updateTheme name _)).fetchLog = _
    rw [routerLoadPage_cache_miss _ _ h2]
    show (updateTheme name _).fetchLog ++ _ = _
    rw [(updateTheme_proj _ _).2.2.2.2.1, (layoutStep_proj name st).2.2.1]
  · show (routerLoadPage name (updateTheme name _)).cache = _
    rw [routerLoadPage_cache_miss _ _ h2]
    show assocSet (updateTheme name _).cache name _ = _
    rw [(updateTheme_proj _ _).2.2.2.2.2, (layoutStep_proj name st).2.2.2]

theorem navCommit_hit (name : String) (st : App) (c : String)
    (hcache : assocGet st.cache name = some c) :
    (navCommit name st).fetchLog = st.fetchLog ∧
    (navCommit name st).cache = st.cache := by
  unfold navCommit
  have h2 : assocGet (updateTheme name (if some (getLayoutForPage name) ≠
      st.currentLayout then switchLayout (getLayoutForPage name) st else st)).cache
      name = some c := by
    rw [(updateTheme_proj _ _).2.2.2.2.2, (layoutStep_proj name st).2.2.2]
    exact hcache
  constructor
  · show (routerLoadPage name (updateTheme name _)).fetchLog = _
    rw [routerLoadPage_cache_hit _ _ _ h2]
    rw [(updateTheme_proj _ _).2.2.2.2.1, (layoutStep_proj name st).2.2.1]
  · show (routerLoadPage name (updateTheme name _)).cache = _
    rw [routerLoadPage_cache_hit _ _ _ h2]
    rw [(updateTheme_proj _ _).2.2.2.2.2, (layoutStep_proj name st).2.2.2]

theorem legacy_not_route (n v : String)
    (h : assocGet legacyRedirects n = some v) : assocGet routes n = none := by
  simp only [legacyRedirects, assocGet] at h
  split_ifs at h with h1 h2 h3 h4 h5
  · rw [← h1]; decide
  · rw [← h2]; decide
  · rw [← h3]; decide
  · rw [← h4]; decide
  · rw [← h5]; decide

theorem localOnly_facts (name : String) (h : name ∈ localOnlyRoutes) :
    validateRoute (resolveAlias name) = name ∧ isDashboardRoute name = true ∧
    name ≠ "dashboard-home" := by
  simp only [localOnlyRoutes, List.mem_cons, List.not_mem_nil, or_false] at h
  rcases h with rfl | rfl | rfl | rfl | rfl | rfl <;>
    exact ⟨by decide, by decide, by decide⟩

theorem orAssign_get_ne (o : Obj) (k' k : String) (v : Value) (h : k' ≠ k) :
    assocGet (orAssign o k' v) k = assocGet o k := by
  unfold orAssign
  split_ifs
  · rfl
  · exact assocGet_set_ne _ _ _ _ h

theorem generateId_ne_empty (t r : Nat) : generateId t r ≠ "" := by
  intro h
  have hl : (generateId t r).length = 0 := by rw [h]; rfl
  unfold generateId at hl
  simp only [String.length_append] at hl
  have h4 : ("gbe_" : String).length = 4 := rfl
  have h1 : ("_" : String).length = 1 := rfl
  rw [h4, h1] at hl
  omega

theorem add_eq (st : Store) (key : String) (item : Obj) (gid aid now : String) :
    DataStore.add st key item gid aid now =
      (assocSet (orAssign (orAssign item "id" (.vStr gid)) "createdAt" (.vStr now))
         "updatedAt" (.vStr now),
       DataStore.logActivity
         (storageSet st key (storageGet st key ++
           [assocSet (orAssign (orAssign item "id" (.vStr gid)) "createdAt"
             (.vStr now)) "updatedAt" (.vStr now)]))
         "create" key
         (assocSet (orAssign (orAssign item "id" (.vStr gid)) "createdAt"
           (.vStr now)) "updatedAt" (.vStr now)) aid now) := by
  rfl

theorem update_found_eq (st : Store) (key id : String) (updates : Obj)
    (aid now : String) (i : Nat)
    (hfind : findIndexById (storageGet st key) id = some i) :
    DataStore.update st key id updates aid now =
      (some (assocSet (mergeObj ((storageGet st key).getD i []) updates)
         "updatedAt" (.vStr now)),
       DataStore.logActivity
         (storageSet st key ((storageGet st key).set i
           (assocSet (mergeObj ((storageGet st key).getD i []) updates)
             "updatedAt" (.vStr now))))
         "update" key
         (assocSet (mergeObj ((storageGet st key).getD i []) updates)
           "updatedAt" (.vStr now)) aid now) := by
  simp only [DataStore.update, hfind]

theorem delete_found_eq (st : Store) (key id : String) (aid now : String)
    (it : Obj) (hfind : findById (storageGet st key) id = some it) :
    DataStore.deleteById st key id aid now =
      ((storageGet st key).filter (fun x => !(matchesId id x)),
       DataStore.logActivity
         (storageSet st key ((storageGet st key).filter (fun x => !(matchesId id x))))
         "delete" key it aid now) := by
  simp only [DataStore.deleteById, hfind]

theorem delete_missing_eq (st : Store) (key id : String) (aid now : String)
    (hfind : findById (storageGet st key) id = none) :
    DataStore.deleteById st key id aid now =
      ((storageGet st key).filter (fun x => !(matchesId id x)),
       storageSet st key ((storageGet st key).filter (fun x => !(matchesId id x)))) := by
  simp only [DataStore.deleteById, hfind]

theorem findById_none_of_no_match (l : List Obj) (id : String)
    (h : ∀ it ∈ l, matchesId id it = false) : findById l id = none := by
  have := findById_append_no_match l [] id h
  simpa using this

theorem mem_set_self {α : Type} (l : List α) (i : Nat) (a : α)
    (h : i < l.length) : a ∈ l.set i a := by
  induction l generalizing i with
  | nil => simp at h
  | cons b rest ih =>
      cases i with
      | zero => simp
      | succ j =>
          simp only [List.set]
          simp only [List.length_cons] at h
          exact List.mem_cons_of_mem _ (ih j (by omega))

theorem countP_one_split {α : Type} (p : α → Bool) (l : List α)
    (h : l.countP p = 1) :
    ∃ l1 x l2, l = l1 ++ x :: l2 ∧ p x = true ∧
      (∀ y ∈ l1, p y = false) ∧ (∀ y ∈ l2, p y = false) := by
  induction l with
  | nil => simp [List.countP_nil] at h
  | cons a l ih =>
      rw [List.countP_cons] at h
      cases hp : p a with
      | true =>
          rw [hp] at h
          simp only [if_true] at h
          have hz : l.countP p = 0 := by omega
          refine ⟨[], a, l, by simp, hp, by simp, ?_⟩
          intro y hy
          have := List.countP_eq_zero.mp hz y hy
          simpa using this
      | false =>
          rw [hp] at h
          simp only [Bool.false_eq_true, if_false, Nat.add_zero] at h
          obtain ⟨l1, x, l2, heq, hx, h1, h2⟩ := ih h
          exact ⟨a :: l1, x, l2, by simp [heq], hx,
            by intro y hy; rcases List.mem_cons.mp hy with rfl | hy
               exacts [hp, h1 y hy], h2⟩

/-! Claim theorems. -/

/-- C1: for an unauthenticated session, one where the Access Controller
guard refuses the resolved route, navigateTo on dashboard-home returns
right after the guard: currentLayout and currentPage (the current route
name) are unchanged, no content fetch is performed, and no layout
switch, theme update or PageLoader activity happens (fetch, layout and
theme logs and the content cache are untouched). -/
theorem c1_unauthenticated_navigation_is_inert (st : App)
    (h : guardAllows "dashboard-home" st.auth = false) :
    (navigateTo 2 "dashboard-home" false st).currentLayout = st.currentLayout ∧
    (navigateTo 2 "dashboard-home" false st).currentPage = st.currentPage ∧
    (navigateTo 2 "dashboard-home" false st).fetchLog = st.fetchLog ∧
    (navigateTo 2 "dashboard-home" false st).layoutLog = st.layoutLog ∧
    (navigateTo 2 "dashboard-home" false st).themeLog = st.themeLog ∧
    (navigateTo 2 "dashboard-home" false st).cache = st.cache := by
  have hres : validateRoute (resolveAlias "dashboard-home") = "dashboard-home" := by
    decide
  have hnav : navigateTo 2 "dashboard-home" false st =
      (guardRoute "dashboard-home" st).2 := by
    rw [show (2 : Nat) = 1 + 1 from rfl]
    simp only [navigateTo, hres]
    rw [guardRoute_fst, h]
    simp
  have hf := guardRoute_frame "dashboard-home" st
  rw [hnav]
  exact ⟨hf.2.1, hf.1, hf.2.2.2.2.1, hf.2.2.2.2.2.1, hf.2.2.2.2.2.2.1,
    hf.2.2.2.1⟩

/-- C4 counterexample: an approved federated member (non-admin) on the
LAN navigating to the admin-only route dashboard-team is rejected with
a visible notice, but the router does not redirect to dashboard-home:
the current route stays dashboard-roster and nothing is fetched.  The
claim that every role-restricted rejection redirects to the
administrative home route is therefore false on the code. -/
theorem c4_counterexample :
    (navigateTo 2 "dashboard-team" false
        (mkApp memberSession (some "dashboard-roster"))).toasts =
      ["Access denied. Admin privileges required."] ∧
    (navigateTo 2 "dashboard-team" false
        (mkApp memberSession (some "dashboard-roster"))).currentPage =
      some "dashboard-roster" ∧
    (navigateTo 2 "dashboard-team" false
        (mkApp memberSession (some "dashboard-roster"))).currentPage ≠
      some "dashboard-home" ∧
    (navigateTo 2 "dashboard-team" false
        (mkApp memberSession (some "dashboard-roster"))).fetchLog = [] := by
  decide

/-- C4 (amended): a role-restricted rejection (admin-only
dashboard-team for a non-admin session) shows a visible notice and
leaves the router state otherwise unchanged, without redirecting; an
environment-restricted rejection (local-only route without the local
tier) shows a visible notice and redirects to dashboard-home.  In both
cases currentRouteName never becomes the rejected route. -/
theorem c4_restricted_route_rejections :
    (∀ (st : App) (force : Bool),
        guardAllows "dashboard-team" st.auth = true →
        isAdmin st.auth = false →
        navigateTo 2 "dashboard-team" force st =
          { st with toasts :=
              st.toasts ++ ["Access denied. Admin privileges required."] }) ∧
    (∀ (st : App) (name : String) (force : Bool),
        name ∈ localOnlyRoutes →
        isLocalDashboard st.auth = false →
        guardAllows name st.auth = true →
        (name = "dashboard-team" → isAdmin st.auth = true) →
        (navigateTo 2 name force st).currentPage = some "dashboard-home" ∧
        (navigateTo 2 name force st).toasts =
          st.toasts ++ ["This section is only available on the local dashboard."] ∧
        name ≠ "dashboard-home") := by
  constructor
  · intro st force hteam hnonadmin
    rw [show (2 : Nat) = 1 + 1 from rfl]
    exact navigateTo_role_block 1 force st hteam hnonadmin
  · intro st name force hmem hloc hpass hadm
    obtain ⟨hres, hdash, hnh⟩ := localOnly_facts name hmem
    have hadm' : ¬(name = "dashboard-team" ∧ isAdmin st.auth = false) := by
      rintro ⟨he, hf⟩
      rw [hadm he] at hf
      simp at hf
    rw [show (2 : Nat) = 1 + 1 from rfl,
      navigateTo_env_block 1 name force st hres hpass hadm' hmem hloc]
    have hres2 : validateRoute (resolveAlias "dashboard-home") = "dashboard-home" := by
      decide
    have hpass2 : guardAllows "dashboard-home"
        ({ st with toasts := st.toasts ++
          ["This section is only available on the local dashboard."] } : App).auth =
        true := by
      show guardAllows "dashboard-home" st.auth = true
      rw [guardAllows_dashboard_congr "dashboard-home" name st.auth (by decide) hdash]
      exact hpass
    have hadm2 : ¬("dashboard-home" = "dashboard-team" ∧
        isAdmin ({ st with toasts := st.toasts ++
          ["This section is only available on the local dashboard."] } : App).auth =
          false) := by
      rintro ⟨he, _⟩
      exact absurd he (by decide)
    have henv2 : ¬("dashboard-home" ∈ localOnlyRoutes ∧
        isLocalDashboard ({ st with toasts := st.toasts ++
          ["This section is only available on the local dashboard."] } : App).auth =
          false) := by
      rintro ⟨he, _⟩
      revert he
      decide
    by_cases hcur : ({ st with toasts := st.toasts ++
        ["This section is only available on the local dashboard."] } : App).currentPage =
        some "dashboard-home"
    · rw [show (1 : Nat) = 0 + 1 from rfl,
        navigateTo_noop 0 "dashboard-home" _ hres2 hpass2 hadm2 henv2 hcur]
      exact ⟨hcur, rfl, hnh⟩
    · rw [show (1 : Nat) = 0 + 1 from rfl,
        navigateTo_proceed 0 "dashboard-home" false _ hres2 hpass2 hadm2 henv2
          (by simp [hcur])]
      exact ⟨(navCommit_proj _ _).1, (navCommit_proj _ _).2.1, hnh⟩

/-- Witness for C4 (amended) at concrete sessions: a LAN member blocked
from dashboard-team, and a remote member blocked from
dashboard-finances. -/
theorem c4_witness :
    (navigateTo 2 "dashboard-team" false
        (mkApp memberSession (some "dashboard-home")) =
      { mkApp memberSession (some "dashboard-home") with toasts :=
          (mkApp memberSession (some "dashboard-home")).toasts ++
            ["Access denied. Admin privileges required."] }) ∧
    ((navigateTo 2 "dashboard-finances" false
        (mkApp remoteMemberSession (some "dashboard-roster"))).currentPage =
      some "dashboard-home" ∧
    (navigateTo 2 "dashboard-finances" false
        (mkApp remoteMemberSession (some "dashboard-roster"))).toasts =
      (mkApp remoteMemberSession (some "dashboard-roster")).toasts ++
        ["This section is only available on the local dashboard."] ∧
    "dashboard-finances" ≠ "dashboard-home") :=
  ⟨c4_restricted_route_rejections.1 _ false (by decide) (by decide),
   c4_restricted_route_rejections.2 _ "dashboard-finances" false (by decide)
     (by decide) (by decide) (fun h => absurd h (by decide))⟩

/-- C3: for a known route, with the guard passing and the route not
role- or environment-blocked, navigating twice in succession with
forceLoad false performs exactly one content fetch: the first call
fetches once and commits the route, the second call is a complete
no-op (the route name equals the current page), and even a forced
reload afterwards is served from the PageLoader cache without another
fetch. -/
theorem c3_navigation_idempotent (st : App) (name url : String)
    (hroute : assocGet routes name = some url)
    (hpass : guardAllows name st.auth = true)
    (hadm : ¬(name = "dashboard-team" ∧ isAdmin st.auth = false))
    (henv : ¬(name ∈ localOnlyRoutes ∧ isLocalDashboard st.auth = false))
    (hcur : st.currentPage ≠ some name)
    (hcache : assocGet st.cache name = none) :
    (navigateTo 2 name false st).fetchLog = st.fetchLog ++ [url] ∧
    navigateTo 2 name false (navigateTo 2 name false st) =
      navigateTo 2 name false st ∧
    (navigateTo 2 name true (navigateTo 2 name false st)).fetchLog =
      st.fetchLog ++ [url] := by
  have hlegacy : assocGet legacyRedirects name = none := by
    cases hl : assocGet legacyRedirects name with
    | none => rfl
    | some v =>
        rw [legacy_not_route name v hl] at hroute
        exact absurd hroute (by simp)
  have hres : validateRoute (resolveAlias name) = name := by
    simp [resolveAlias, validateRoute, hlegacy, hroute]
  have hurl : (assocGet routes name).getD "" = url := by
    rw [hroute]
    rfl
  have hcommit : navigateTo 2 name false st = navCommit name st := by
    rw [show (2 : Nat) = 1 + 1 from rfl]
    exact navigateTo_proceed 1 name false st hres hpass hadm henv (by simp [hcur])
  have hR1auth : (navigateTo 2 name false st).auth = st.auth := by
    rw [hcommit]
    exact (navCommit_proj _ _).2.2
  have hR1page : (navigateTo 2 name false st).currentPage = some name := by
    rw [hcommit]
    exact (navCommit_proj _ _).1
  have hR1fetch : (navigateTo 2 name false st).fetchLog = st.fetchLog ++ [url] := by
    rw [hcommit, (navCommit_miss name st hcache).1, hurl]
  have hR1cache : assocGet (navigateTo 2 name false st).cache name =
      some (fetchContent url) := by
    rw [hcommit, (navCommit_miss name st hcache).2, hurl]
    exact assocGet_set_self _ _ _
  refine ⟨hR1fetch, ?_, ?_⟩
  · rw [show (2 : Nat) = 1 + 1 from rfl]
    exact navigateTo_noop 1 name _ hres (by rw [hR1auth]; exact hpass)
      (by rw [hR1auth]; exact hadm) (by rw [hR1auth]; exact henv) hR1page
  · have hcommit3 : navigateTo 2 name true (navigateTo 2 name false st) =
        navCommit name (navigateTo 2 name false st) := by
      rw [show (2 : Nat) = 1 + 1 from rfl]
      exact navigateTo_proceed 1 name true _ hres (by rw [hR1auth]; exact hpass)
        (by rw [hR1auth]; exact hadm) (by rw [hR1auth]; exact henv) (by simp)
    rw [hcommit3, (navCommit_hit name _ _ hR1cache).1, hR1fetch]

/-- Witness for C3: an approved admin navigating twice to
dashboard-contracts from dashboard-home with an empty cache. -/
theorem c3_witness :
    ((navigateTo 2 "dashboard-contracts" false
        (mkApp adminSession (some "dashboard-home"))).fetchLog =
      (mkApp adminSession (some "dashboard-home")).fetchLog ++
        ["dashboard/contracts.html"] ∧
    navigateTo 2 "dashboard-contracts" false
        (navigateTo 2 "dashboard-contracts" false
          (mkApp adminSession (some "dashboard-home"))) =
      navigateTo 2 "dashboard-contracts" false
        (mkApp adminSession (some "dashboard-home")) ∧
    (navigateTo 2 "dashboard-contracts" true
        (navigateTo 2 "dashboard-contracts" false
          (mkApp adminSession (some "dashboard-home")))).fetchLog =
      (mkApp adminSession (some "dashboard-home")).fetchLog ++
        ["dashboard/contracts.html"]) :=
  c3_navigation_idempotent (mkApp adminSession (some "dashboard-home"))
    "dashboard-contracts" "dashboard/contracts.html" (by decide) (by decide)
    (by decide) (by decide) (by decide) (by decide)

/-- C2: when the registration lookup promise rejects during federated
sign-in, the auth listener fails open: the session becomes authorized
with registration status approved (and role admin), no sign-out is
performed and the user object is kept, and the route guard then admits
every route, restricted ones included. -/
theorem c2_registration_failure_fails_open (st : App) (fuel : Nat)
    (hpin : st.auth.isPinAuth = false)
    (hinit : st.auth.initialized = true)
    (hining : st.auth.initializing = false) :
    (handleAuthState fuel true .rejected st).auth.authorized = true ∧
    (handleAuthState fuel true .rejected st).auth.registrationStatus =
      some "approved" ∧
    (handleAuthState fuel true .rejected st).auth.role = some "admin" ∧
    isAuthenticated (handleAuthState fuel true .rejected st).auth = true ∧
    (handleAuthState fuel true .rejected st).signOutCalls = st.signOutCalls ∧
    (handleAuthState fuel true .rejected st).auth.hasUser = true ∧
    (∀ p, guardAllows p (handleAuthState fuel true .rejected st).auth = true) := by
  have hst : handleAuthState fuel true .rejected st =
      { st with auth := { st.auth with
                          hasUser := true,
                          authorized := true,
                          registrationStatus := some "approved",
                          role := some "admin" } } := by
    simp [handleAuthState, hpin]
  rw [hst]
  refine ⟨rfl, rfl, rfl, by simp [isAuthenticated], rfl, rfl, ?_⟩
  intro p
  unfold guardAllows
  split_ifs with h1 h2 h3 h4 h5
  · rfl
  · rfl
  · exact absurd h3 (by simp [hining])
  · exact absurd h4 (by simp [hinit])
  · rfl
  · exact absurd h5 (by simp [isAuthenticated])

/-- Witness for C2 at a concrete in-flight federated session. -/
theorem c2_witness :
    ((handleAuthState 2 true .rejected
        (mkApp guestSession (some "home"))).auth.authorized = true ∧
    (handleAuthState 2 true .rejected
        (mkApp guestSession (some "home"))).auth.registrationStatus =
      some "approved" ∧
    (handleAuthState 2 true .rejected
        (mkApp guestSession (some "home"))).auth.role = some "admin" ∧
    isAuthenticated (handleAuthState 2 true .rejected
        (mkApp guestSession (some "home"))).auth = true ∧
    (handleAuthState 2 true .rejected
        (mkApp guestSession (some "home"))).signOutCalls =
      (mkApp guestSession (some "home")).signOutCalls ∧
    (handleAuthState 2 true .rejected
        (mkApp guestSession (some "home"))).auth.hasUser = true ∧
    (∀ p, guardAllows p (handleAuthState 2 true .rejected
        (mkApp guestSession (some "home"))).auth = true)) :=
  c2_registration_failure_fails_open (mkApp guestSession (some "home")) 2
    (by decide) (by decide) (by decide)

/-- C5: adding a record that lacks an id stores it under a freshly
generated non-empty id (the freshness hypothesis mirrors the negligible
collision probability of Utils.generateId), and getById immediately
afterwards returns exactly the record that add returned. -/
theorem c5_add_getById_roundtrip (st : Store) (key : String) (item : Obj)
    (t r : Nat) (aid now : String)
    (hkey : key ≠ DataStore.activityKey)
    (hid : assocGet item "id" = none)
    (hfresh : ∀ it ∈ storageGet st key,
      assocGet it "id" ≠ some (Value.vStr (generateId t r))) :
    assocGet (DataStore.add st key item (generateId t r) aid now).1 "id" =
      some (Value.vStr (generateId t r)) ∧
    generateId t r ≠ "" ∧
    DataStore.getById (DataStore.add st key item (generateId t r) aid now).2 key
        (generateId t r) =
      some (DataStore.add st key item (generateId t r) aid now).1 := by
  have hitem : assocGet (DataStore.add st key item (generateId t r) aid now).1 "id" =
      some (Value.vStr (generateId t r)) := by
    rw [add_eq]
    show assocGet (assocSet (orAssign (orAssign item "id" _) "createdAt" _)
      "updatedAt" _) "id" = _
    rw [assocGet_set_ne _ _ _ _ (by decide), orAssign_get_ne _ _ _ _ (by decide)]
    unfold orAssign
    rw [hid]
    simp [truthyOpt, assocGet_set_self]
  have hstore : storageGet (DataStore.add st key item (generateId t r) aid now).2 key =
      storageGet st key ++ [(DataStore.add st key item (generateId t r) aid now).1] := by
    rw [add_eq]
    show storageGet (DataStore.logActivity (storageSet st key _) "create" key _
      aid now) key = _
    rw [logActivity_other _ _ _ _ _ _ _ hkey, storageGet_set_self]
  have hnomatch : ∀ it ∈ storageGet st key,
      matchesId (generateId t r) it = false := by
    intro it hit
    simpa [matchesId] using hfresh it hit
  refine ⟨hitem, generateId_ne_empty t r, ?_⟩
  unfold DataStore.getById
  rw [hstore, findById_append_no_match _ _ _ hnomatch]
  simp [findById, matchesId, hitem]

/-- Witness for C5: adding a nameless record to the one-element roster
with the concrete generated id gbe_1_00ff. -/
theorem c5_witness :
    assocGet (DataStore.add storeA "gbe-roster" [("name", Value.vStr "Bob")]
        (generateId 1 255) "act9" "t9").1 "id" =
      some (Value.vStr (generateId 1 255)) ∧
    generateId 1 255 ≠ "" ∧
    DataStore.getById (DataStore.add storeA "gbe-roster"
        [("name", Value.vStr "Bob")] (generateId 1 255) "act9" "t9").2 "gbe-roster"
        (generateId 1 255) =
      some (DataStore.add storeA "gbe-roster" [("name", Value.vStr "Bob")]
        (generateId 1 255) "act9" "t9").1 :=
  c5_add_getById_roundtrip storeA "gbe-roster" [("name", Value.vStr "Bob")]
    1 255 "act9" "t9" (by decide) (by decide) (by decide)

/-- C6 counterexample: the claim quantifies over every patch object,
but a patch carrying an id key remaps the stored id, so getById with
the original id afterwards finds nothing instead of the merged record.
-/
theorem c6_counterexample :
    (DataStore.update storeA "gbe-roster" "a" [("id", Value.vStr "b")]
        "act2" "t2").1 =
      some [("id", Value.vStr "b"), ("x", Value.vNum 1),
        ("updatedAt", Value.vStr "t2")] ∧
    DataStore.getById (DataStore.update storeA "gbe-roster" "a"
        [("id", Value.vStr "b")] "act2" "t2").2 "gbe-roster" "a" = none := by
  decide

/-- C6 (amended): for every patch that does not carry an id key,
update followed by getById returns the merged record: updatedAt is the
fresh stamp (strictly greater than the pre-update one when the clock
advanced), every other patch key overwrites the stored value, and
every field absent from the patch is unchanged. -/
theorem c6_update_getById_roundtrip (st : Store) (key id : String) (patch : Obj)
    (aid now t0 : String) (i : Nat)
    (hkey : key ≠ DataStore.activityKey)
    (hfind : findIndexById (storageGet st key) id = some i)
    (hpid : assocGet patch "id" = none)
    (hnodup : (patch.map Prod.fst).Nodup)
    (ht0 : assocGet ((storageGet st key).getD i []) "updatedAt" =
      some (Value.vStr t0))
    (htime : t0 < now) :
    ∃ m, (DataStore.update st key id patch aid now).1 = some m ∧
      DataStore.getById (DataStore.update st key id patch aid now).2 key id =
        some m ∧
      assocGet m "updatedAt" = some (Value.vStr now) ∧ t0 < now ∧
      (∀ k w, k ≠ "updatedAt" → assocGet patch k = some w →
        assocGet m k = some w) ∧
      (∀ k, k ≠ "updatedAt" → assocGet patch k = none →
        assocGet m k = assocGet ((storageGet st key).getD i []) k) := by
  have hold : matchesId id ((storageGet st key).getD i []) = true :=
    findIndexById_getD _ _ _ hfind
  have holdid : assocGet ((storageGet st key).getD i []) "id" =
      some (Value.vStr id) := by
    simpa [matchesId] using hold
  have hmid : assocGet (assocSet (mergeObj ((storageGet st key).getD i []) patch)
      "updatedAt" (Value.vStr now)) "id" = some (Value.vStr id) := by
    rw [assocGet_set_ne _ _ _ _ (by decide), mergeObj_get_absent _ _ _ hpid,
      holdid]
  refine ⟨assocSet (mergeObj ((storageGet st key).getD i []) patch) "updatedAt"
    (Value.vStr now), ?_, ?_, assocGet_set_self _ _ _, htime, ?_, ?_⟩
  · rw [update_found_eq st key id patch aid now i hfind]
  · rw [update_found_eq st key id patch aid now i hfind]
    unfold DataStore.getById
    show findById (storageGet (DataStore.logActivity (storageSet st key _)
      "update" key _ aid now) key) id = _
    rw [logActivity_other _ _ _ _ _ _ _ hkey, storageGet_set_self]
    refine findById_set_of_findIndex _ _ _ _ hfind ?_
    unfold matchesId
    rw [hmid]
    simp
  · intro k w hk hw
    rw [assocGet_set_ne _ _ _ _ (fun he => hk he.symm)]
    exact mergeObj_get_present _ _ _ _ hnodup hw
  · intro k hk hnone
    rw [assocGet_set_ne _ _ _ _ (fun he => hk he.symm)]
    exact mergeObj_get_absent _ _ _ hnone

/-- Witness for C6 (amended): patching the x field of the stored
record in storeB with the clock at t2. -/
theorem c6_witness :
    ∃ m, (DataStore.update storeB "gbe-roster" "a" [("x", Value.vNum 2)]
        "act2" "t2").1 = some m ∧
      DataStore.getById (DataStore.update storeB "gbe-roster" "a"
          [("x", Value.vNum 2)] "act2" "t2").2 "gbe-roster" "a" = some m ∧
      assocGet m "updatedAt" = some (Value.vStr "t2") ∧ "t1" < "t2" ∧
      (∀ k w, k ≠ "updatedAt" → assocGet [("x", Value.vNum 2)] k = some w →
        assocGet m k = some w) ∧
      (∀ k, k ≠ "updatedAt" → assocGet [("x", Value.vNum 2)] k = none →
        assocGet m k =
          assocGet ((storageGet storeB "gbe-roster").getD 0 []) k) :=
  c6_update_getById_roundtrip storeB "gbe-roster" "a" [("x", Value.vNum 2)]
    "act2" "t2" "t1" 0 (by decide) (by decide) (by decide) (by decide)
    (by decide) (String.lt_iff_toList_lt.mpr (by decide))

/-- C7: when an id occurs exactly once, delete removes exactly that
record without reordering the remainder, and a second delete with the
same id is a no-op on the collection and appends no activity record. -/
theorem c7_delete_once_then_noop (st : Store) (key id : String)
    (aid now aid2 now2 : String)
    (hkey : key ≠ DataStore.activityKey)
    (honce : (storageGet st key).countP (fun it => matchesId id it) = 1) :
    (∃ l1 x l2,
      storageGet st key = l1 ++ x :: l2 ∧ matchesId id x = true ∧
      (DataStore.deleteById st key id aid now).1 = l1 ++ l2 ∧
      storageGet (DataStore.deleteById st key id aid now).2 key = l1 ++ l2) ∧
    storageGet (DataStore.deleteById (DataStore.deleteById st key id aid now).2
        key id aid2 now2).2 key =
      storageGet (DataStore.deleteById st key id aid now).2 key ∧
    storageGet (DataStore.deleteById (DataStore.deleteById st key id aid now).2
        key id aid2 now2).2 DataStore.activityKey =
      storageGet (DataStore.deleteById st key id aid now).2
        DataStore.activityKey := by
  obtain ⟨l1, x, l2, heq, hx, h1, h2⟩ :=
    countP_one_split (fun it => matchesId id it) _ honce
  have hfilter : (storageGet st key).filter (fun y => !(matchesId id y)) =
      l1 ++ l2 := by
    rw [heq, List.filter_append]
    have hf1 : l1.filter (fun y => !(matchesId id y)) = l1 :=
      List.filter_eq_self.mpr (by intro a ha; simp [h1 a ha])
    have hf2 : (x :: l2).filter (fun y => !(matchesId id y)) = l2 := by
      rw [List.filter_cons]
      simp only [hx]
      simp only [Bool.not_true, Bool.false_eq_true, if_false]
      exact List.filter_eq_self.mpr (by intro a ha; simp [h2 a ha])
    rw [hf1, hf2]
  have hfindx : findById (storageGet st key) id = some x := by
    rw [heq, findById_append_no_match l1 (x :: l2) id h1]
    simp [findById, hx]
  have hdel1 := delete_found_eq st key id aid now x hfindx
  have hs1 : storageGet (DataStore.deleteById st key id aid now).2 key =
      l1 ++ l2 := by
    rw [hdel1]
    show storageGet (DataStore.logActivity (storageSet st key _) "delete" key x
      aid now) key = _
    rw [logActivity_other _ _ _ _ _ _ _ hkey, storageGet_set_self, hfilter]
  have hnomatch : ∀ it ∈ l1 ++ l2, matchesId id it = false := by
    intro it hit
    rcases List.mem_append.mp hit with h | h
    · exact h1 it h
    · exact h2 it h
  have hfind2 : findById
      (storageGet (DataStore.deleteById st key id aid now).2 key) id = none := by
    rw [hs1]
    exact findById_none_of_no_match _ _ hnomatch
  have hfilter2 : (storageGet (DataStore.deleteById st key id aid now).2
      key).filter (fun y => !(matchesId id y)) = l1 ++ l2 := by
    rw [hs1]
    exact List.filter_eq_self.mpr (by intro a ha; simp [hnomatch a ha])
  have hdel2 := delete_missing_eq (DataStore.deleteById st key id aid now).2
    key id aid2 now2 hfind2
  refine ⟨⟨l1, x, l2, heq, hx, ?_, hs1⟩, ?_, ?_⟩
  · rw [hdel1]
    exact hfilter
  · rw [hdel2]
    show storageGet (storageSet _ key _) key = _
    rw [storageGet_set_self, hfilter2, hs1]
  · rw [hdel2]
    show storageGet (storageSet _ key _) DataStore.activityKey = _
    exact storageGet_set_ne _ _ _ _ hkey

/-- Witness for C7: deleting the single record with id a from storeA
twice. -/
theorem c7_witness :
    (∃ l1 x l2,
      storageGet storeA "gbe-roster" = l1 ++ x :: l2 ∧
      matchesId "a" x = true ∧
      (DataStore.deleteById storeA "gbe-roster" "a" "act1" "t1").1 = l1 ++ l2 ∧
      storageGet (DataStore.deleteById storeA "gbe-roster" "a" "act1" "t1").2
        "gbe-roster" = l1 ++ l2) ∧
    storageGet (DataStore.deleteById
        (DataStore.deleteById storeA "gbe-roster" "a" "act1" "t1").2
        "gbe-roster" "a" "act2" "t2").2 "gbe-roster" =
      storageGet (DataStore.deleteById storeA "gbe-roster" "a" "act1" "t1").2
        "gbe-roster" ∧
    storageGet (DataStore.deleteById
        (DataStore.deleteById storeA "gbe-roster" "a" "act1" "t1").2
        "gbe-roster" "a" "act2" "t2").2 DataStore.activityKey =
      storageGet (DataStore.deleteById storeA "gbe-roster" "a" "act1" "t1").2
        DataStore.activityKey :=
  c7_delete_once_then_noop storeA "gbe-roster" "a" "act1" "t1" "act2" "t2"
    (by decide) (by decide)

/-- C9 counterexample: adding a record that already carries the id of an
existing record simply appends it, leaving two records with id a in the
collection: ids are no longer pairwise distinct. -/
theorem c9_counterexample :
    ((storageGet (DataStore.add storeA "gbe-roster" [("id", Value.vStr "a")]
        "gbe_1_0000" "act1" "t1").2 "gbe-roster").map
      (fun it => assocGet it "id") =
      [some (Value.vStr "a"), some (Value.vStr "a")]) ∧
    ¬ ((storageGet (DataStore.add storeA "gbe-roster" [("id", Value.vStr "a")]
        "gbe_1_0000" "act1" "t1").2 "gbe-roster").map
      (fun it => assocGet it "id")).Nodup := by
  decide

/-- C9 (amended): add never overwrites an existing record, it always
appends the new one; and when the added record's effective id is not
already present, pairwise distinctness of ids is preserved.  (The
unconditional distinctness over records that carry a duplicate id is
refuted by the counterexample.) -/
theorem c9_add_appends_preserving_unique_ids (st : Store) (key : String)
    (item : Obj) (gid aid now : String)
    (hkey : key ≠ DataStore.activityKey) :
    (storageGet (DataStore.add st key item gid aid now).2 key =
      storageGet st key ++ [(DataStore.add st key item gid aid now).1]) ∧
    (((storageGet st key).map (fun it => assocGet it "id")).Nodup →
      assocGet (DataStore.add st key item gid aid now).1 "id" ∉
        (storageGet st key).map (fun it => assocGet it "id") →
      ((storageGet (DataStore.add st key item gid aid now).2 key).map
        (fun it => assocGet it "id")).Nodup) := by
  have happ : storageGet (DataStore.add st key item gid aid now).2 key =
      storageGet st key ++ [(DataStore.add st key item gid aid now).1] := by
    rw [add_eq]
    show storageGet (DataStore.logActivity (storageSet st key _) "create" key _
      aid now) key = _
    rw [logActivity_other _ _ _ _ _ _ _ hkey, storageGet_set_self]
  refine ⟨happ, fun hnd hnm => ?_⟩
  rw [happ, List.map_append]
  simp [List.nodup_append, hnd, hnm]

/-- Witness for C9 (amended): adding a record with fresh id to storeA. -/
theorem c9_witness :
    (storageGet (DataStore.add storeA "gbe-roster" [("name", Value.vStr "Bob")]
        "gbe_9_0000" "act9" "t9").2 "gbe-roster" =
      storageGet storeA "gbe-roster" ++
        [(DataStore.add storeA "gbe-roster" [("name", Value.vStr "Bob")]
          "gbe_9_0000" "act9" "t9").1]) ∧
    ((storageGet (DataStore.add storeA "gbe-roster" [("name", Value.vStr "Bob")]
        "gbe_9_0000" "act9" "t9").2 "gbe-roster").map
      (fun it => assocGet it "id")).Nodup :=
  ⟨(c9_add_appends_preserving_unique_ids storeA "gbe-roster"
      [("name", Value.vStr "Bob")] "gbe_9_0000" "act9" "t9" (by decide)).1,
   (c9_add_appends_preserving_unique_ids storeA "gbe-roster"
      [("name", Value.vStr "Bob")] "gbe_9_0000" "act9" "t9" (by decide)).2
     (by decide) (by decide)⟩

/-- C10: update always stamps updatedAt with its own fresh timestamp:
even when the patch itself carries an updatedAt value, the stored and
returned record holds the stamp, while every other patch key does
overwrite the stored field. -/
theorem c10_update_overwrites_caller_updatedAt (st : Store) (key id : String)
    (patch : Obj) (aid now : String) (i : Nat)
    (hkey : key ≠ DataStore.activityKey)
    (hfind : findIndexById (storageGet st key) id = some i)
    (hnodup : (patch.map Prod.fst).Nodup) :
    ∃ m, (DataStore.update st key id patch aid now).1 = some m ∧
      assocGet m "updatedAt" = some (Value.vStr now) ∧
      m ∈ storageGet (DataStore.update st key id patch aid now).2 key ∧
      (∀ k w, k ≠ "updatedAt" → assocGet patch k = some w →
        assocGet m k = some w) := by
  refine ⟨assocSet (mergeObj ((storageGet st key).getD i []) patch) "updatedAt"
    (Value.vStr now), ?_, assocGet_set_self _ _ _, ?_, ?_⟩
  · rw [update_found_eq st key id patch aid now i hfind]
  · rw [update_found_eq st key id patch aid now i hfind]
    show _ ∈ storageGet (DataStore.logActivity (storageSet st key _) "update"
      key _ aid now) key
    rw [logActivity_other _ _ _ _ _ _ _ hkey, storageGet_set_self]
    exact mem_set_self _ _ _ (findIndexById_lt_length _ _ _ hfind)
  · intro k w hk hw
    rw [assocGet_set_ne _ _ _ _ (fun he => hk he.symm)]
    exact mergeObj_get_present _ _ _ _ hnodup hw

/-- Witness for C10: a patch smuggling updatedAt HACK still yields the
stamp t2, while its x field does overwrite. -/
theorem c10_witness :
    ∃ m, (DataStore.update storeB "gbe-roster" "a"
        [("updatedAt", Value.vStr "HACK"), ("x", Value.vNum 5)] "act2" "t2").1 =
      some m ∧
      assocGet m "updatedAt" = some (Value.vStr "t2") ∧
      m ∈ storageGet (DataStore.update storeB "gbe-roster" "a"
        [("updatedAt", Value.vStr "HACK"), ("x", Value.vNum 5)] "act2" "t2").2
        "gbe-roster" ∧
      (∀ k w, k ≠ "updatedAt" →
        assocGet [("updatedAt", Value.vStr "HACK"), ("x", Value.vNum 5)] k =
          some w →
        assocGet m k = some w) :=
  c10_update_overwrites_caller_updatedAt storeB "gbe-roster" "a"
    [("updatedAt", Value.vStr "HACK"), ("x", Value.vNum 5)] "act2" "t2" 0
    (by decide) (by decide) (by decide)

set_option maxRecDepth 10000 in
theorem c8_scenario_decided :
    DataStore.getActivity (runAdds 55 0 []) 50 =
      ((List.range 55).drop 5).reverse.map activityAt ∧
    (DataStore.getActivity (runAdds 55 0 []) 50).length = 50 ∧
    (∀ i < 5, activityAt i ∉ DataStore.getActivity (runAdds 55 0 []) 50) := by
  decide

/-- C8: the activity log is a bounded newest-first ring buffer.  Every
mutation (add, update of an existing id, delete of an existing id)
prepends exactly one activity record and truncates to the newest 50;
the stored list never exceeds 50; and after the 55-mutation scenario
getActivity 50 returns exactly 50 records newest-first with the 5
oldest absent. -/
theorem c8_activity_ring_buffer :
    (∀ (st : Store) (key : String) (item : Obj) (gid aid now : String),
      key ≠ DataStore.activityKey →
      storageGet (DataStore.add st key item gid aid now).2
          DataStore.activityKey =
        (mkActivity "create" key (DataStore.add st key item gid aid now).1
          aid now :: storageGet st DataStore.activityKey).take 50) ∧
    (∀ (st : Store) (key id : String) (updates : Obj) (aid now : String)
        (i : Nat),
      key ≠ DataStore.activityKey →
      findIndexById (storageGet st key) id = some i →
      ∃ m, (DataStore.update st key id updates aid now).1 = some m ∧
        storageGet (DataStore.update st key id updates aid now).2
            DataStore.activityKey =
          (mkActivity "update" key m aid now ::
            storageGet st DataStore.activityKey).take 50) ∧
    (∀ (st : Store) (key id aid now : String) (it : Obj),
      key ≠ DataStore.activityKey →
      findById (storageGet st key) id = some it →
      storageGet (DataStore.deleteById st key id aid now).2
          DataStore.activityKey =
        (mkActivity "delete" key it aid now ::
          storageGet st DataStore.activityKey).take 50) ∧
    (∀ (st : Store) (action entityKey : String) (entity : Obj)
        (aid now : String),
      (storageGet (DataStore.logActivity st action entityKey entity aid now)
        DataStore.activityKey).length ≤ 50) ∧
    (DataStore.getActivity (runAdds 55 0 []) 50 =
      ((List.range 55).drop 5).reverse.map activityAt ∧
    (DataStore.getActivity (runAdds 55 0 []) 50).length = 50 ∧
    (∀ i < 5, activityAt i ∉ DataStore.getActivity (runAdds 55 0 []) 50)) := by
  refine ⟨?_, ?_, ?_, ?_, ?_⟩
  · intro st key item gid aid now hkey
    rw [add_eq]
    show storageGet (DataStore.logActivity (storageSet st key _) "create" key _
      aid now) DataStore.activityKey = _
    rw [logActivity_activity, storageGet_set_ne _ _ _ _ hkey]
  · intro st key id updates aid now i hkey hfind
    refine ⟨assocSet (mergeObj ((storageGet st key).getD i []) updates)
      "updatedAt" (Value.vStr now), ?_, ?_⟩
    · rw [update_found_eq st key id updates aid now i hfind]
    · rw [update_found_eq st key id updates aid now i hfind]
      show storageGet (DataStore.logActivity (storageSet st key _) "update" key _
        aid now) DataStore.activityKey = _
      rw [logActivity_activity, storageGet_set_ne _ _ _ _ hkey]
  · intro st key id aid now it hkey hfind
    rw [delete_found_eq st key id aid now it hfind]
    show storageGet (DataStore.logActivity (storageSet st key _) "delete" key it
      aid now) DataStore.activityKey = _
    rw [logActivity_activity, storageGet_set_ne _ _ _ _ hkey]
  · intro st action entityKey entity aid now
    rw [logActivity_activity]
    simp [List.length_take]
  · exact c8_scenario_decided

/-- Witness for C8 at concrete stores: one add, one update of an
existing id, one delete of an existing id. -/
theorem c8_witness :
    (storageGet (DataStore.add storeA "gbe-roster" [("name", Value.vStr "Bob")]
        "gbe_9_0000" "act9" "t9").2 DataStore.activityKey =
      (mkActivity "create" "gbe-roster"
        (DataStore.add storeA "gbe-roster" [("name", Value.vStr "Bob")]
          "gbe_9_0000" "act9" "t9").1 "act9" "t9" ::
        storageGet storeA DataStore.activityKey).take 50) ∧
    (∃ m, (DataStore.update storeB "gbe-roster" "a" [("x", Value.vNum 2)]
        "act8" "t8").1 = some m ∧
      storageGet (DataStore.update storeB "gbe-roster" "a" [("x", Value.vNum 2)]
          "act8" "t8").2 DataStore.activityKey =
        (mkActivity "update" "gbe-roster" m "act8" "t8" ::
          storageGet storeB DataStore.activityKey).take 50) ∧
    (storageGet (DataStore.deleteById storeA "gbe-roster" "a" "act7" "t7").2
        DataStore.activityKey =
      (mkActivity "delete" "gbe-roster" [("id", Value.vStr "a"),
        ("x", Value.vNum 1)] "act7" "t7" ::
        storageGet storeA DataStore.activityKey).take 50) :=
  ⟨c8_activity_ring_buffer.1 storeA "gbe-roster" [("name", Value.vStr "Bob")]
     "gbe_9_0000" "act9" "t9" (by decide),
   c8_activity_ring_buffer.2.1 storeB "gbe-roster" "a" [("x", Value.vNum 2)]
     "act8" "t8" 0 (by decide) (by decide),
   c8_activity_ring_buffer.2.2.1 storeA "gbe-roster" "a" "act7" "t7"
     [("id", Value.vStr "a"), ("x", Value.vNum 1)] (by decide) (by decide)⟩

/-- Witness for C1 at a concrete unauthenticated session. -/
theorem c1_witness :
    guardAllows "dashboard-home" (mkApp guestSession (some "home")).auth = false ∧
    ((navigateTo 2 "dashboard-home" false (mkApp guestSession (some "home"))).currentLayout =
        (mkApp guestSession (some "home")).currentLayout ∧
      (navigateTo 2 "dashboard-home" false (mkApp guestSession (some "home"))).currentPage =
        (mkApp guestSession (some "home")).currentPage ∧
      (navigateTo 2 "dashboard-home" false (mkApp guestSession (some "home"))).fetchLog =
        (mkApp guestSession (some "home")).fetchLog ∧
      (navigateTo 2 "dashboard-home" false (mkApp guestSession (some "home"))).layoutLog =
        (mkApp guestSession (some "home")).layoutLog ∧
      (navigateTo 2 "dashboard-home" false (mkApp guestSession (some "home"))).themeLog =
        (mkApp guestSession (some "home")).themeLog ∧
      (navigateTo 2 "dashboard-home" false (mkApp guestSession (some "home"))).cache =
        (mkApp guestSession (some "home")).cache) :=
  ⟨by decide, c1_unauthenticated_navigation_is_inert _ (by decide)⟩

end GBE
